import Mathlib

/-!
Verification of the user-identifier resolution subsystem of
`src/services/vendor.atlassian.users.service.ts`.

The service is embedded shallowly:
  * the character classes of the two regexes are explicit character lists;
  * the in-memory `Map` of `UserCache` is an association list;
  * timestamps (`Date.now()`) are integers in milliseconds, passed in
    explicitly as a `now` parameter;
  * the HTTP transport and credential provider are an oracle `Env`;
    a `fetchAtlassian` call that throws is an `Except.error`;
  * each search strategy is split into its `try`-block body
    (`...Try`, which can end in an error) and the exported function
    (whose catch-all converts any error into a null result);
  * `resolveUserIdentifier` additionally reports the number of
    `fetchAtlassian` invocations and the trace of strategy calls it made,
    so that network-count and fallback-order properties can be stated.
-/

namespace JiraUsers

/-- A user object as in `UserSchema` (the optional `avatarUrls` object is
omitted: it is never read by the resolution logic). -/
structure User where
  accountId : String
  accountType : Option String := none
  emailAddress : Option String := none
  displayName : Option String := none
  name : Option String := none
  active : Option Bool := none
deriving DecidableEq, Repr

/-- The `users` block of the group/user picker response. -/
structure PickerUsers where
  users : List User
  total : Int
deriving DecidableEq, Repr

/-- `GroupUserPickerResponseSchema` (the `groups` block is omitted: it is
never read by the resolution logic). -/
structure GroupUserPickerResponse where
  users : Option PickerUsers
deriving DecidableEq, Repr

/-- Errors that the transport layer or a strategy body can raise:
`createAuthMissingError` and HTTP/transport failures. -/
inductive JiraError where
  | authMissing
  | http (status : Nat)
deriving DecidableEq, Repr

/-- The external collaborators: `getAtlassianCredentials` (present or not)
and `fetchAtlassian` against the two endpoints, as response oracles keyed by
the query string. An `Except.error` models a thrown transport error. -/
structure Env where
  hasCredentials : Bool
  pickerFetch : String → Except JiraError GroupUserPickerResponse
  searchFetch : String → Except JiraError (List User)

/-- The character class `[0-9a-f]`. -/
def isHexLowerChar (c : Char) : Bool :=
  (decide ('0' ≤ c) && decide (c ≤ '9')) || (decide ('a' ≤ c) && decide (c ≤ 'f'))

/-- The character class `[0-9a-f-]`. -/
def isHexDashChar (c : Char) : Bool :=
  isHexLowerChar c || c == '-'

/-- `isAccountId`: tests `^[0-9a-f]{6}:` (six lowercase hex characters
followed by a colon) or `^[0-9a-f-]{36}$` (a 36-character hex/hyphen
string). -/
def isAccountId (identifier : String) : Bool :=
  ((identifier.data.take 6).all isHexLowerChar
      && identifier.data[6]? == some ':')
    || (identifier.data.length == 36 && identifier.data.all isHexDashChar)

/-- The character class `[^\s@]` of the email regex (JS `\s` is modelled by
`Char.isWhitespace`). -/
def okLocalChar (c : Char) : Bool :=
  !c.isWhitespace && !(c == '@')

/-- `isEmail`: tests `^[^\s@]+@[^\s@]+\.[^\s@]+$`. The regex matches
exactly when the string splits at its first `@` into a nonempty left part
and a right part, both free of whitespace and `@`, where the right part
contains a `.` that is neither its first nor its last character. -/
def isEmail (identifier : String) : Bool :=
  let l := identifier.data
  let a := l.takeWhile (fun c => !(c == '@'))
  let b := l.drop (a.length + 1)
  !a.isEmpty && a.all okLocalChar && !b.isEmpty && b.all okLocalChar
    && (b.drop 1).dropLast.contains '.'

/-- JS `toLowerCase`, modelled as character-wise ASCII lower-casing. -/
def toLowerCase (s : String) : String := ⟨s.data.map Char.toLower⟩

/-- A `UserCache` map entry: `{ accountId, timestamp }`. -/
structure CacheEntry where
  accountId : String
  timestamp : Int
deriving DecidableEq, Repr

/-- `private readonly TTL = 1000 * 60 * 60` (one hour, in milliseconds). -/
def TTL : Int := 1000 * 60 * 60

namespace UserCache

/-- The backing `Map<string, CacheEntry>`, as an association list with
unique keys. -/
abbrev CacheMap := List (String × CacheEntry)

/-- `Map.prototype.get`. -/
def mapGet (m : CacheMap) (k : String) : Option CacheEntry :=
  (m.find? (fun p => p.1 == k)).map (fun p => p.2)

/-- `Map.prototype.delete`. -/
def mapDelete (m : CacheMap) (k : String) : CacheMap :=
  m.filter (fun p => !(p.1 == k))

/-- `UserCache.get`: looks up the lower-cased identifier; a fresh entry is
returned, an expired entry is deleted and reported as a miss. Returns the
result together with the cache state after the call. -/
def get (now : Int) (m : CacheMap) (identifier : String) :
    Option String × CacheMap :=
  match mapGet m (toLowerCase identifier) with
  | some cached =>
      if now - cached.timestamp < TTL then (some cached.accountId, m)
      else (none, mapDelete m (toLowerCase identifier))
  | none => (none, m)

/-- `UserCache.set`: stores the accountId under the lower-cased identifier
with the current timestamp (`Map.set` overwrites any previous entry). -/
def set (now : Int) (m : CacheMap) (identifier : String)
    (accountId : String) : CacheMap :=
  (toLowerCase identifier, ⟨accountId, now⟩) :: mapDelete m (toLowerCase identifier)

end UserCache

/-- The `try` block of `searchUsersWithPicker`: throw `authMissing` when
credentials are absent, otherwise fetch `/rest/api/3/groupuserpicker` and
return `response.users?.users || null`. The second component counts
`fetchAtlassian` invocations. -/
def searchUsersWithPickerTry (env : Env) (query : String) :
    Except JiraError (Option (List User)) × Nat :=
  if env.hasCredentials then
    match env.pickerFetch query with
    | Except.error e => (Except.error e, 1)
    | Except.ok response =>
        (Except.ok (response.users.map (fun ub => ub.users)), 1)
  else (Except.error JiraError.authMissing, 0)

/-- `searchUsersWithPicker`: the `try` body with its catch-all, which logs
and returns null on any error. -/
def searchUsersWithPicker (env : Env) (query : String) :
    Option (List User) × Nat :=
  match searchUsersWithPickerTry env query with
  | (Except.ok r, n) => (r, n)
  | (Except.error _, n) => (none, n)

/-- The `try` block of `searchUsers`: throw `authMissing` when credentials
are absent, otherwise fetch `/rest/api/3/user/search` and return the
response array. -/
def searchUsersTry (env : Env) (query : String) :
    Except JiraError (List User) × Nat :=
  if env.hasCredentials then
    match env.searchFetch query with
    | Except.error e => (Except.error e, 1)
    | Except.ok l => (Except.ok l, 1)
  else (Except.error JiraError.authMissing, 0)

/-- `searchUsers`: the `try` body with its catch-all, which logs and
returns null on any error. -/
def searchUsers (env : Env) (query : String) : Option (List User) × Nat :=
  match searchUsersTry env query with
  | (Except.ok l, n) => (some l, n)
  | (Except.error _, n) => (none, n)

/-- One recorded strategy invocation of the resolver's fallback chain. -/
inductive StrategyCall where
  | picker (query : String)
  | directory (query : String)
deriving DecidableEq, Repr

/-- The condition `!users || users.length === 0` of the fallback chain. -/
def noCandidates : Option (List User) → Bool
  | none => true
  | some l => l.isEmpty

/-- State of the fallback chain after a step: the current `users` variable,
the `fetchAtlassian` count so far and the strategy-call trace so far. -/
structure ChainState where
  users : Option (List User)
  fetches : Nat
  calls : List StrategyCall
deriving Repr

/-- Chain step (a): `if (isEmail(identifier)) users = await
searchUsersWithPicker(identifier)` (starting from `users = null`). -/
def chainStep1 (env : Env) (identifier : String) : ChainState :=
  if isEmail identifier then
    ⟨(searchUsersWithPicker env identifier).1,
     (searchUsersWithPicker env identifier).2,
     [StrategyCall.picker identifier]⟩
  else ⟨none, 0, []⟩

/-- Chain step (b): `if (!users || users.length === 0) users = await
searchUsers(identifier)`. -/
def chainStep2 (env : Env) (identifier : String) (s : ChainState) :
    ChainState :=
  if noCandidates s.users then
    ⟨(searchUsers env identifier).1,
     s.fetches + (searchUsers env identifier).2,
     s.calls ++ [StrategyCall.directory identifier]⟩
  else s

/-- Chain step (c): `if (!users || users.length === 0) users = await
searchUsersWithPicker(identifier)`. -/
def chainStep3 (env : Env) (identifier : String) (s : ChainState) :
    ChainState :=
  if noCandidates s.users then
    ⟨(searchUsersWithPicker env identifier).1,
     s.fetches + (searchUsersWithPicker env identifier).2,
     s.calls ++ [StrategyCall.picker identifier]⟩
  else s

/-- The full three-step strategy fallback chain of `resolveUserIdentifier`. -/
def runChain (env : Env) (identifier : String) : ChainState :=
  chainStep3 env identifier (chainStep2 env identifier (chainStep1 env identifier))

/-- The exact-match predicate of the disambiguation step: email, login
name or display name equals the identifier after lower-casing (a missing
field never matches, as with optional chaining in the source). -/
def exactMatch (identifier : String) (u : User) : Bool :=
  u.emailAddress.map toLowerCase == some (toLowerCase identifier)
    || u.name.map toLowerCase == some (toLowerCase identifier)
    || u.displayName.map toLowerCase == some (toLowerCase identifier)

/-- Disambiguation: `users.find(exact match)` and, when there is none,
`users[0]`. -/
def pickUser (identifier : String) (u0 : User) (rest : List User) : User :=
  ((u0 :: rest).find? (exactMatch identifier)).getD u0

/-- Observable outcome of one `resolveUserIdentifier` call: the returned
value, the cache state after the call, the number of `fetchAtlassian`
invocations and the trace of strategy calls. -/
structure ResolveOut where
  result : Option String
  cache : UserCache.CacheMap
  fetches : Nat
  calls : List StrategyCall
deriving DecidableEq, Repr

/-- `resolveUserIdentifier`: empty-identifier guard, accountId passthrough,
cache lookup, the three-step fallback chain, disambiguation, and the cache
write guarded by `user?.accountId` being truthy (a nonempty string). -/
def resolveUserIdentifier (env : Env) (now : Int) (cache : UserCache.CacheMap)
    (identifier : String) : ResolveOut :=
  if identifier = "" then ⟨none, cache, 0, []⟩
  else if isAccountId identifier then ⟨some identifier, cache, 0, []⟩
  else
    match UserCache.get now cache identifier with
    | (some v, c1) => ⟨some v, c1, 0, []⟩
    | (none, c1) =>
      match (runChain env identifier).users with
      | some (u0 :: rest) =>
          if (pickUser identifier u0 rest).accountId ≠ "" then
            ⟨some (pickUser identifier u0 rest).accountId,
             UserCache.set now c1 identifier
               (pickUser identifier u0 rest).accountId,
             (runChain env identifier).fetches,
             (runChain env identifier).calls⟩
          else
            ⟨none, c1, (runChain env identifier).fetches,
             (runChain env identifier).calls⟩
      | some [] =>
          ⟨none, c1, (runChain env identifier).fetches,
           (runChain env identifier).calls⟩
      | none =>
          ⟨none, c1, (runChain env identifier).fetches,
           (runChain env identifier).calls⟩

end JiraUsers

/-! ### Concrete environments used by witnesses and counterexamples -/

namespace JiraUsers

/-- No credentials configured; the transport would succeed if reached. -/
def envNoCreds : Env :=
  ⟨false, fun _ => Except.ok ⟨none⟩, fun _ => Except.ok []⟩

/-- Credentials present; both endpoints succeed with empty candidate
lists. -/
def envEmptyAll : Env :=
  ⟨true, fun _ => Except.ok ⟨some ⟨[], 0⟩⟩, fun _ => Except.ok []⟩

/-- A sample user: no email, no login name, display name `Bob B`. -/
def userBob : User := { accountId := "557058:bob", displayName := some "Bob B" }

/-- A user whose display name matches the identifier `bob` exactly up to
case. -/
def userBobExact : User := { accountId := "557058:exact", displayName := some "Bob" }

/-- Credentials present; the picker finds `userBob`, the directory search
succeeds with an empty list. -/
def envBob : Env :=
  ⟨true, fun _ => Except.ok ⟨some ⟨[userBob], 1⟩⟩, fun _ => Except.ok []⟩

/-- Credentials present; the picker finds `userBob`, the directory search
fails with an HTTP 403 (transport error, degraded to null). -/
def envDirFails : Env :=
  ⟨true, fun _ => Except.ok ⟨some ⟨[userBob], 1⟩⟩,
   fun _ => Except.error (JiraError.http 403)⟩

/-- Credentials present; a successful picker response that carries no
`users` block at all, and an empty directory result. -/
def envNoUsersBlock : Env :=
  ⟨true, fun _ => Except.ok ⟨none⟩, fun _ => Except.ok []⟩

/-! ### Helper lemmas -/

/-- Without credentials the picker strategy catches `authMissing` and
returns null, with no `fetchAtlassian` call. -/
theorem picker_no_creds (env : Env) (q : String)
    (h : env.hasCredentials = false) :
    searchUsersWithPicker env q = (none, 0) := by
  unfold searchUsersWithPicker searchUsersWithPickerTry
  rw [h]
  simp

/-- Without credentials the directory strategy catches `authMissing` and
returns null, with no `fetchAtlassian` call. -/
theorem search_no_creds (env : Env) (q : String)
    (h : env.hasCredentials = false) :
    searchUsers env q = (none, 0) := by
  unfold searchUsers searchUsersTry
  rw [h]
  simp

theorem chainStep1_not_email (env : Env) (identifier : String)
    (h : isEmail identifier = false) :
    chainStep1 env identifier = ⟨none, 0, []⟩ := by
  unfold chainStep1; rw [h]; simp

theorem chainStep1_email (env : Env) (identifier : String)
    (h : isEmail identifier = true) :
    chainStep1 env identifier =
      ⟨(searchUsersWithPicker env identifier).1,
       (searchUsersWithPicker env identifier).2,
       [StrategyCall.picker identifier]⟩ := by
  unfold chainStep1; rw [h]; simp

theorem chainStep2_go (env : Env) (identifier : String) (s : ChainState)
    (h : noCandidates s.users = true) :
    chainStep2 env identifier s =
      ⟨(searchUsers env identifier).1,
       s.fetches + (searchUsers env identifier).2,
       s.calls ++ [StrategyCall.directory identifier]⟩ := by
  unfold chainStep2; rw [h]; simp

theorem chainStep2_skip (env : Env) (identifier : String) (s : ChainState)
    (h : noCandidates s.users = false) :
    chainStep2 env identifier s = s := by
  unfold chainStep2; rw [h]; simp

theorem chainStep3_go (env : Env) (identifier : String) (s : ChainState)
    (h : noCandidates s.users = true) :
    chainStep3 env identifier s =
      ⟨(searchUsersWithPicker env identifier).1,
       s.fetches + (searchUsersWithPicker env identifier).2,
       s.calls ++ [StrategyCall.picker identifier]⟩ := by
  unfold chainStep3; rw [h]; simp

theorem chainStep3_skip (env : Env) (identifier : String) (s : ChainState)
    (h : noCandidates s.users = false) :
    chainStep3 env identifier s = s := by
  unfold chainStep3; rw [h]; simp

/-- Reading a key right after writing it, within the TTL, hits the fresh
entry and leaves the cache untouched. -/
theorem get_after_set (now1 now2 : Int) (m : UserCache.CacheMap)
    (identifier aid : String) (h : now2 - now1 < TTL) :
    UserCache.get now2 (UserCache.set now1 m identifier aid) identifier =
      (some aid, UserCache.set now1 m identifier aid) := by
  unfold UserCache.get UserCache.set UserCache.mapGet
  rw [List.find?_cons_of_pos _ (by simp)]
  simp [h, UserCache.set]

/-- On the search path (nonempty, non-canonical, cache-missed identifier)
the resolver is the fallback chain followed by disambiguation and the
guarded cache write. -/
theorem resolve_chain_cases (env : Env) (now : Int)
    (cache : UserCache.CacheMap) (identifier : String)
    (h1 : ¬ identifier = "") (h2 : isAccountId identifier = false)
    (h3 : (UserCache.get now cache identifier).1 = none) :
    resolveUserIdentifier env now cache identifier =
      match (runChain env identifier).users with
      | some (u0 :: rest) =>
          if (pickUser identifier u0 rest).accountId ≠ "" then
            ⟨some (pickUser identifier u0 rest).accountId,
             UserCache.set now (UserCache.get now cache identifier).2
               identifier (pickUser identifier u0 rest).accountId,
             (runChain env identifier).fetches,
             (runChain env identifier).calls⟩
          else
            ⟨none, (UserCache.get now cache identifier).2,
             (runChain env identifier).fetches,
             (runChain env identifier).calls⟩
      | some [] =>
          ⟨none, (UserCache.get now cache identifier).2,
           (runChain env identifier).fetches,
           (runChain env identifier).calls⟩
      | none =>
          ⟨none, (UserCache.get now cache identifier).2,
           (runChain env identifier).fetches,
           (runChain env identifier).calls⟩ := by
  rcases hget : UserCache.get now cache identifier with ⟨r, c2⟩
  rw [hget] at h3
  simp only at h3
  subst h3
  unfold resolveUserIdentifier
  rw [if_neg h1, hget]
  simp [h2]

end JiraUsers

namespace JiraUsers

/-! ### C2: accepted accountId shapes -/

/-- C2 counterexample: `ab:` has a 2-character hex prefix followed by a
colon and `12345678:` an 8-character one — both inside the claimed
`1..8`-hex-prefix shape — yet `isAccountId` rejects them: the code
requires exactly 6 hex characters before the colon. -/
theorem c2_isAccountId_short_prefix_cex :
    (("ab:" : String).data.take 2).all isHexLowerChar = true
    ∧ ("ab:" : String).data[2]? = some ':'
    ∧ isAccountId "ab:" = false
    ∧ (("12345678:" : String).data.take 8).all isHexLowerChar = true
    ∧ ("12345678:" : String).data[8]? = some ':'
    ∧ isAccountId "12345678:" = false := by
  decide

/-- C2 (amended): `isAccountId` returns true for every string with a
prefix of exactly 6 hex characters followed by a colon and for every
36-character hex/hyphen string, and false for `johndoe`, `John Doe` and
the empty string. -/
theorem c2_isAccountId_shapes_amended :
    (∀ a b : String, a.data.length = 6 → a.data.all isHexLowerChar = true →
        isAccountId (a ++ ":" ++ b) = true)
    ∧ (∀ s : String, s.data.length = 36 → s.data.all isHexDashChar = true →
        isAccountId s = true)
    ∧ isAccountId "johndoe" = false
    ∧ isAccountId "John Doe" = false
    ∧ isAccountId "" = false := by
  refine ⟨?_, ?_, by decide, by decide, by decide⟩
  · intro a b hlen hhex
    unfold isAccountId
    have hdata : (a ++ ":" ++ b).data = a.data ++ ':' :: b.data := by
      simp
    rw [hdata]
    have htake : (a.data ++ ':' :: b.data).take 6 = a.data :=
      List.take_left' hlen
    have hget : (a.data ++ ':' :: b.data)[6]? = some ':' := by
      rw [List.getElem?_append_right (by omega), hlen]
      simp
    rw [htake, hget]
    simp [hhex]
  · intro s h36 hdash
    unfold isAccountId
    rw [h36, hdash]
    simp

/-- C2 witness: the amended shapes at concrete inputs. -/
theorem c2_isAccountId_shapes_amended_witness :
    isAccountId ("5570ab" ++ ":" ++ "x") = true
    ∧ isAccountId "0123456789abcdef0123-89abcdef0123456" = true :=
  ⟨c2_isAccountId_shapes_amended.1 "5570ab" "x" (by decide) (by decide),
   c2_isAccountId_shapes_amended.2.1 "0123456789abcdef0123-89abcdef0123456"
     (by decide) (by decide)⟩

/-! ### C7: cache get contract -/

/-- C7: `UserCache.get` normalizes the key to lower case; a fresh entry
(age strictly below the 1-hour TTL) is returned with the cache untouched,
an expired entry is deleted and reported absent, a missing entry is
reported absent with the cache untouched. -/
theorem c7_cache_get_contract :
    ∀ (now : Int) (m : UserCache.CacheMap) (identifier : String),
    (∀ e, UserCache.mapGet m (toLowerCase identifier) = some e →
        now - e.timestamp < TTL →
        UserCache.get now m identifier = (some e.accountId, m))
    ∧ (∀ e, UserCache.mapGet m (toLowerCase identifier) = some e →
        TTL ≤ now - e.timestamp →
        UserCache.get now m identifier =
          (none, UserCache.mapDelete m (toLowerCase identifier)))
    ∧ (UserCache.mapGet m (toLowerCase identifier) = none →
        UserCache.get now m identifier = (none, m))
    ∧ TTL = 3600000 := by
  intro now m identifier
  refine ⟨?_, ?_, ?_, by decide⟩
  · intro e he hfresh
    unfold UserCache.get
    rw [he]
    simp [hfresh]
  · intro e he hexp
    unfold UserCache.get
    rw [he]
    simp [show ¬ now - e.timestamp < TTL from by omega]
  · intro he
    unfold UserCache.get
    rw [he]

/-- C7 witness: an entry inserted at time 0 under key `x` is expired at
time TTL when read through the upper-case identifier `X`, is deleted, and
the read reports a miss. -/
theorem c7_cache_get_contract_witness :
    UserCache.get TTL [("x", ⟨"old-id", 0⟩)] "X" = (none, []) := by
  have h := (c7_cache_get_contract TTL [("x", ⟨"old-id", (0 : Int)⟩)] "X").2.1
    ⟨"old-id", 0⟩ (by decide) (by decide)
  exact h.trans (by decide)

end JiraUsers

namespace JiraUsers

/-! ### C10: canonical-ID classification is case-sensitive -/

/-- The uppercase hex letters, which the code's character classes omit. -/
def isUpperHexLetter (c : Char) : Bool :=
  ['A', 'B', 'C', 'D', 'E', 'F'].contains c

theorem upperHex_elim {c : Char} (h : isUpperHexLetter c = true) :
    c = 'A' ∨ c = 'B' ∨ c = 'C' ∨ c = 'D' ∨ c = 'E' ∨ c = 'F' := by
  have hm : c ∈ ['A', 'B', 'C', 'D', 'E', 'F'] := by
    simpa [isUpperHexLetter, List.contains] using h
  simpa using hm

theorem upperHex_not_lower {c : Char} (h : isUpperHexLetter c = true) :
    isHexLowerChar c = false := by
  rcases upperHex_elim h with rfl | rfl | rfl | rfl | rfl | rfl <;> decide

theorem upperHex_not_dash {c : Char} (h : isUpperHexLetter c = true) :
    isHexDashChar c = false := by
  rcases upperHex_elim h with rfl | rfl | rfl | rfl | rfl | rfl <;> decide

/-- C10: `isAccountId` is case-sensitive — any uppercase hex letter in the
colon-delimited prefix, or in a 36-character hex/hyphen-with-uppercase
body, makes it return false; such identifiers are not passed through but
enter the search chain (at least one strategy call is made). -/
theorem c10_case_sensitive :
    (∀ a b : String, ':' ∉ a.data →
        (∃ c ∈ a.data, isUpperHexLetter c = true) →
        isAccountId (a ++ ":" ++ b) = false)
    ∧ (∀ s : String, s.data.length = 36 →
        (∀ c ∈ s.data, isHexDashChar c = true ∨ isUpperHexLetter c = true) →
        (∃ c ∈ s.data, isUpperHexLetter c = true) →
        isAccountId s = false)
    ∧ isAccountId "5570AB:x" = false
    ∧ (∀ (env : Env) (now : Int),
        (resolveUserIdentifier env now [] "5570AB:x").calls ≠ []) := by
  refine ⟨?_, ?_, by decide, ?_⟩
  · intro a b hc hu
    obtain ⟨c, hca, hcu⟩ := hu
    unfold isAccountId
    have hdata : (a ++ ":" ++ b).data = a.data ++ ':' :: b.data := by simp
    rw [hdata]
    have hdash : (a.data ++ ':' :: b.data).all isHexDashChar = false :=
      List.all_eq_false.mpr ⟨':', by simp, by decide⟩
    rcases le_or_lt a.data.length 6 with hle | hgt
    · have hx : ((a.data ++ ':' :: b.data).take 6).all isHexLowerChar = false := by
        apply List.all_eq_false.mpr
        refine ⟨c, ?_, by simp [upperHex_not_lower hcu]⟩
        rw [List.take_append_eq_append_take]
        exact List.mem_append_left _
          (by rw [List.take_of_length_le hle]; exact hca)
      simp [hx, hdash]
    · have hne : (a.data ++ ':' :: b.data)[6]? ≠ some ':' := by
        rw [List.getElem?_append_left hgt]
        intro hcontra
        exact hc (List.getElem?_mem hcontra)
      simp [hdash, hne]
  · intro s h36 hall hu
    obtain ⟨c, hca, hcu⟩ := hu
    unfold isAccountId
    have hdash : s.data.all isHexDashChar = false :=
      List.all_eq_false.mpr ⟨c, hca, by simp [upperHex_not_dash hcu]⟩
    have h6 : 6 < s.data.length := by omega
    obtain ⟨d, hd⟩ : ∃ d, s.data[6]? = some d := ⟨s.data[6], by simp [h6]⟩
    have hdmem : d ∈ s.data := List.getElem?_mem hd
    have hdne : d ≠ ':' := by
      rcases hall d hdmem with h | h
      · intro he; subst he; exact absurd h (by decide)
      · intro he; subst he; exact absurd h (by decide)
    have hne : s.data[6]? ≠ some ':' := by
      rw [hd]
      simp [hdne]
    simp [hdash, hne]
  · intro env now
    rw [resolve_chain_cases env now [] _ (by decide) (by decide) rfl]
    have h1 : chainStep1 env "5570AB:x" = ⟨none, 0, []⟩ :=
      chainStep1_not_email env "5570AB:x" (by decide)
    unfold runChain
    rw [h1, chainStep2_go env "5570AB:x" ⟨none, 0, []⟩ rfl]
    rcases hd : noCandidates (searchUsers env "5570AB:x").1 with _ | _
    · rw [chainStep3_skip env "5570AB:x" _ hd]
      rcases hu : (searchUsers env "5570AB:x").1 with _ | l
      · rw [hu] at hd
        simp [noCandidates] at hd
      · rcases l with _ | ⟨u0, rest⟩
        · rw [hu] at hd
          simp [noCandidates] at hd
        · simp only [hu]
          split <;> simp
    · rw [chainStep3_go env "5570AB:x" _ hd]
      rcases hu : (searchUsersWithPicker env "5570AB:x").1 with _ | l
      · simp [hu]
      · rcases l with _ | ⟨u0, rest⟩
        · simp [hu]
        · simp only [hu]
          split <;> simp
end JiraUsers

namespace JiraUsers

/-- Exhaustive case analysis of the fallback chain: which strategies run,
in which order, and whose candidates end up in `users`. -/
theorem runChain_cases (env : Env) (identifier : String) :
    (isEmail identifier = true
      ∧ noCandidates (searchUsersWithPicker env identifier).1 = false
      ∧ runChain env identifier =
          ⟨(searchUsersWithPicker env identifier).1,
           (searchUsersWithPicker env identifier).2,
           [StrategyCall.picker identifier]⟩)
    ∨ (isEmail identifier = true
      ∧ noCandidates (searchUsersWithPicker env identifier).1 = true
      ∧ noCandidates (searchUsers env identifier).1 = false
      ∧ runChain env identifier =
          ⟨(searchUsers env identifier).1,
           (searchUsersWithPicker env identifier).2 +
             (searchUsers env identifier).2,
           [StrategyCall.picker identifier,
            StrategyCall.directory identifier]⟩)
    ∨ (isEmail identifier = true
      ∧ noCandidates (searchUsersWithPicker env identifier).1 = true
      ∧ noCandidates (searchUsers env identifier).1 = true
      ∧ runChain env identifier =
          ⟨(searchUsersWithPicker env identifier).1,
           (searchUsersWithPicker env identifier).2 +
             (searchUsers env identifier).2 +
             (searchUsersWithPicker env identifier).2,
           [StrategyCall.picker identifier, StrategyCall.directory identifier,
            StrategyCall.picker identifier]⟩)
    ∨ (isEmail identifier = false
      ∧ noCandidates (searchUsers env identifier).1 = false
      ∧ runChain env identifier =
          ⟨(searchUsers env identifier).1,
           0 + (searchUsers env identifier).2,
           [StrategyCall.directory identifier]⟩)
    ∨ (isEmail identifier = false
      ∧ noCandidates (searchUsers env identifier).1 = true
      ∧ runChain env identifier =
          ⟨(searchUsersWithPicker env identifier).1,
           0 + (searchUsers env identifier).2 +
             (searchUsersWithPicker env identifier).2,
           [StrategyCall.directory identifier,
            StrategyCall.picker identifier]⟩) := by
  rcases he : isEmail identifier with _ | _
  · -- not email: step (a) skipped
    have h1 := chainStep1_not_email env identifier he
    rcases hd : noCandidates (searchUsers env identifier).1 with _ | _
    · refine Or.inr (Or.inr (Or.inr (Or.inl ⟨rfl, rfl, ?_⟩)))
      unfold runChain
      rw [h1, chainStep2_go env identifier ⟨none, 0, []⟩ rfl,
        chainStep3_skip env identifier _ hd]
      rfl
    · refine Or.inr (Or.inr (Or.inr (Or.inr ⟨rfl, rfl, ?_⟩)))
      unfold runChain
      rw [h1, chainStep2_go env identifier ⟨none, 0, []⟩ rfl,
        chainStep3_go env identifier _ hd]
      rfl
  · -- email: step (a) runs the picker
    have h1 := chainStep1_email env identifier he
    rcases hp : noCandidates (searchUsersWithPicker env identifier).1 with _ | _
    · refine Or.inl ⟨rfl, rfl, ?_⟩
      unfold runChain
      rw [h1, chainStep2_skip env identifier _ hp,
        chainStep3_skip env identifier _ hp]
    · rcases hd : noCandidates (searchUsers env identifier).1 with _ | _
      · refine Or.inr (Or.inl ⟨rfl, rfl, rfl, ?_⟩)
        unfold runChain
        rw [h1, chainStep2_go env identifier _ hp,
          chainStep3_skip env identifier _ hd]
        rfl
      · refine Or.inr (Or.inr (Or.inl ⟨rfl, rfl, rfl, ?_⟩))
        unfold runChain
        rw [h1, chainStep2_go env identifier _ hp,
          chainStep3_go env identifier _ hd]
        rfl

/-- The empty identifier short-circuits. -/
theorem resolve_empty (env : Env) (now : Int) (cache : UserCache.CacheMap) :
    resolveUserIdentifier env now cache "" = ⟨none, cache, 0, []⟩ := by
  unfold resolveUserIdentifier
  simp

/-- An accountId-shaped identifier is passed through unchanged. -/
theorem resolve_accountId (env : Env) (now : Int) (cache : UserCache.CacheMap)
    (identifier : String) (h1 : ¬ identifier = "")
    (h2 : isAccountId identifier = true) :
    resolveUserIdentifier env now cache identifier =
      ⟨some identifier, cache, 0, []⟩ := by
  unfold resolveUserIdentifier
  rw [if_neg h1]
  simp [h2]

/-- A cache hit short-circuits with no strategy call. -/
theorem resolve_cache_hit (env : Env) (now : Int) (cache : UserCache.CacheMap)
    (identifier v : String) (c2 : UserCache.CacheMap)
    (h1 : ¬ identifier = "") (h2 : isAccountId identifier = false)
    (hg : UserCache.get now cache identifier = (some v, c2)) :
    resolveUserIdentifier env now cache identifier = ⟨some v, c2, 0, []⟩ := by
  unfold resolveUserIdentifier
  rw [if_neg h1, hg]
  simp [h2]

/-- On the search path, when the chain finds no candidates, the resolver
returns absent with no cache write. -/
theorem resolve_chain_none (env : Env) (now : Int) (cache : UserCache.CacheMap)
    (identifier : String) (h1 : ¬ identifier = "")
    (h2 : isAccountId identifier = false)
    (h3 : (UserCache.get now cache identifier).1 = none)
    (hu : noCandidates (runChain env identifier).users = true) :
    resolveUserIdentifier env now cache identifier =
      ⟨none, (UserCache.get now cache identifier).2,
       (runChain env identifier).fetches,
       (runChain env identifier).calls⟩ := by
  rw [resolve_chain_cases env now cache identifier h1 h2 h3]
  rcases hl : (runChain env identifier).users with _ | l
  · rfl
  · rcases l with _ | ⟨u0, rest⟩
    · rfl
    · rw [hl] at hu
      simp [noCandidates] at hu

/-- On the search path, when the chain finds a nonempty candidate list,
the resolver disambiguates and performs the guarded cache write. -/
theorem resolve_chain_found (env : Env) (now : Int) (cache : UserCache.CacheMap)
    (identifier : String) (u0 : User) (rest : List User)
    (h1 : ¬ identifier = "")
    (h2 : isAccountId identifier = false)
    (h3 : (UserCache.get now cache identifier).1 = none)
    (hu : (runChain env identifier).users = some (u0 :: rest)) :
    resolveUserIdentifier env now cache identifier =
      (if (pickUser identifier u0 rest).accountId ≠ "" then
        ⟨some (pickUser identifier u0 rest).accountId,
         UserCache.set now (UserCache.get now cache identifier).2
           identifier (pickUser identifier u0 rest).accountId,
         (runChain env identifier).fetches,
         (runChain env identifier).calls⟩
      else
        ⟨none, (UserCache.get now cache identifier).2,
         (runChain env identifier).fetches,
         (runChain env identifier).calls⟩) := by
  rw [resolve_chain_cases env now cache identifier h1 h2 h3, hu]

/-- On the search path the resolver's strategy-call trace is the chain's. -/
theorem resolve_calls_eq (env : Env) (now : Int) (cache : UserCache.CacheMap)
    (identifier : String) (h1 : ¬ identifier = "")
    (h2 : isAccountId identifier = false)
    (h3 : (UserCache.get now cache identifier).1 = none) :
    (resolveUserIdentifier env now cache identifier).calls =
      (runChain env identifier).calls := by
  rcases hu : (runChain env identifier).users with _ | l
  · rw [resolve_chain_none env now cache identifier h1 h2 h3 (by rw [hu]; rfl)]
  · rcases l with _ | ⟨u0, rest⟩
    · rw [resolve_chain_none env now cache identifier h1 h2 h3 (by rw [hu]; rfl)]
    · rw [resolve_chain_found env now cache identifier u0 rest h1 h2 h3 hu]
      split <;> rfl

/-- On the search path the resolver's fetch count is the chain's. -/
theorem resolve_fetches_eq (env : Env) (now : Int) (cache : UserCache.CacheMap)
    (identifier : String) (h1 : ¬ identifier = "")
    (h2 : isAccountId identifier = false)
    (h3 : (UserCache.get now cache identifier).1 = none) :
    (resolveUserIdentifier env now cache identifier).fetches =
      (runChain env identifier).fetches := by
  rcases hu : (runChain env identifier).users with _ | l
  · rw [resolve_chain_none env now cache identifier h1 h2 h3 (by rw [hu]; rfl)]
  · rcases l with _ | ⟨u0, rest⟩
    · rw [resolve_chain_none env now cache identifier h1 h2 h3 (by rw [hu]; rfl)]
    · rw [resolve_chain_found env now cache identifier u0 rest h1 h2 h3 hu]
      split <;> rfl

end JiraUsers

namespace JiraUsers

/-! ### C1: missing credentials do not propagate -/

/-- C1 counterexample: with no credentials configured, the strategy body
raises `authMissing`, but the strategy's catch-all converts it to a null
result and `resolveUserIdentifier` terminates normally with an absent
result after walking the whole fallback chain — no failure crosses the
Resolver boundary. -/
theorem c1_authMissing_propagation_cex :
    (searchUsersWithPickerTry envNoCreds "john@example.com").1 =
      Except.error JiraError.authMissing
    ∧ searchUsersWithPicker envNoCreds "john@example.com" = (none, 0)
    ∧ searchUsers envNoCreds "john@example.com" = (none, 0)
    ∧ (resolveUserIdentifier envNoCreds 0 [] "john@example.com").result = none
    ∧ (resolveUserIdentifier envNoCreds 0 [] "john@example.com").calls ≠ [] := by
  refine ⟨rfl, rfl, rfl, rfl, by decide⟩

/-- C1 (amended): when the credential provider returns absent, every
strategy catches the missing-credentials error and converts it to a null
result, so for every nonempty, non-canonical, non-cached identifier the
resolution returns absent (with zero transport calls) instead of failing
hard. -/
theorem c1_authMissing_swallowed_amended :
    ∀ (env : Env) (now : Int) (cache : UserCache.CacheMap)
      (identifier : String),
    env.hasCredentials = false → ¬ identifier = "" →
    isAccountId identifier = false →
    (UserCache.get now cache identifier).1 = none →
    (resolveUserIdentifier env now cache identifier).result = none
    ∧ (resolveUserIdentifier env now cache identifier).fetches = 0 := by
  intro env now cache identifier hcred h1 h2 h3
  have hp := picker_no_creds env identifier hcred
  have hs := search_no_creds env identifier hcred
  have hnp : noCandidates (searchUsersWithPicker env identifier).1 = true := by
    rw [hp]
    rfl
  have hns : noCandidates (searchUsers env identifier).1 = true := by
    rw [hs]
    rfl
  have hrun : (runChain env identifier).users = none
      ∧ (runChain env identifier).fetches = 0 := by
    rcases runChain_cases env identifier with
      ⟨_, hc, _⟩ | ⟨_, _, hc, _⟩ | ⟨_, _, _, hr⟩ | ⟨_, hc, _⟩ | ⟨_, _, hr⟩
    · simp [hnp] at hc
    · simp [hns] at hc
    · constructor <;> simp [hr, hp, hs]
    · simp [hns] at hc
    · constructor <;> simp [hr, hp, hs]
  obtain ⟨hu, hf⟩ := hrun
  rw [resolve_chain_none env now cache identifier h1 h2 h3 (by rw [hu]; rfl)]
  exact ⟨rfl, hf⟩

/-- C1 witness: the amended statement at a concrete non-email identifier
with no credentials. -/
theorem c1_authMissing_swallowed_amended_witness :
    (resolveUserIdentifier envNoCreds 0 [] "bob").result = none
    ∧ (resolveUserIdentifier envNoCreds 0 [] "bob").fetches = 0 :=
  c1_authMissing_swallowed_amended envNoCreds 0 [] "bob" rfl (by decide)
    (by decide) rfl

/-! ### C3: strategy repetition within one resolution -/

/-- C3 counterexample: for the email-shaped identifier `a@b.c` with both
strategies succeeding with empty lists, the picker is invoked twice with
the same query in a single resolution. -/
theorem c3_picker_repeats_cex :
    (resolveUserIdentifier envEmptyAll 0 [] "a@b.c").calls =
      [StrategyCall.picker "a@b.c", StrategyCall.directory "a@b.c",
       StrategyCall.picker "a@b.c"]
    ∧ ¬ (resolveUserIdentifier envEmptyAll 0 [] "a@b.c").calls.Nodup := by
  decide

/-- C3 (amended): a single resolution never repeats a strategy with the
same query, except that for an email-shaped identifier whose first picker
attempt and directory search both yield no candidates, the picker runs a
second time with the same query (the trace is then exactly
picker, directory, picker). -/
theorem c3_no_repeat_amended :
    ∀ (env : Env) (now : Int) (cache : UserCache.CacheMap)
      (identifier : String),
    (resolveUserIdentifier env now cache identifier).calls.Nodup
    ∨ (isEmail identifier = true
       ∧ (resolveUserIdentifier env now cache identifier).calls =
           [StrategyCall.picker identifier, StrategyCall.directory identifier,
            StrategyCall.picker identifier]) := by
  intro env now cache identifier
  by_cases h1 : identifier = ""
  · subst h1
    left
    rw [resolve_empty]
    exact List.nodup_nil
  rcases h2 : isAccountId identifier with _ | _
  · rcases hg : UserCache.get now cache identifier with ⟨r, c2⟩
    rcases r with _ | v
    · have h3 : (UserCache.get now cache identifier).1 = none := by rw [hg]
      have hcalls := resolve_calls_eq env now cache identifier h1 h2 h3
      rcases runChain_cases env identifier with
        ⟨he, _, hr⟩ | ⟨he, _, _, hr⟩ | ⟨he, _, _, hr⟩ | ⟨he, _, hr⟩ | ⟨he, _, hr⟩
      · left; rw [hcalls, hr]; simp
      · left; rw [hcalls, hr]; simp
      · right; exact ⟨he, by rw [hcalls, hr]⟩
      · left; rw [hcalls, hr]; simp
      · left; rw [hcalls, hr]; simp
    · left
      rw [resolve_cache_hit env now cache identifier v c2 h1 h2 hg]
      exact List.nodup_nil
  · left
    rw [resolve_accountId env now cache identifier h1 h2]
    exact List.nodup_nil

/-! ### C4: null versus empty strategy results -/

/-- C4 counterexample: a successful picker transport response that simply
lacks the `users` block makes `searchUsersWithPicker` return null even
though no transport or auth failure occurred. -/
theorem c4_picker_null_on_success_cex :
    envNoUsersBlock.hasCredentials = true
    ∧ envNoUsersBlock.pickerFetch "john" = Except.ok ⟨none⟩
    ∧ searchUsersWithPicker envNoUsersBlock "john" = (none, 1) :=
  ⟨rfl, rfl, rfl⟩

/-- C4 (amended): the directory strategy returns null exactly on
transport/auth failure and otherwise returns the (possibly empty)
candidate list; the picker additionally returns null when a successful
response omits the `users` block, and otherwise returns the (possibly
empty) candidate list. -/
theorem c4_null_means_failure_amended :
    (∀ (env : Env) (q : String) (l : List User), env.hasCredentials = true →
        env.searchFetch q = Except.ok l → searchUsers env q = (some l, 1))
    ∧ (∀ (env : Env) (q : String), (searchUsers env q).1 = none →
        env.hasCredentials = false
        ∨ ∃ e, env.searchFetch q = Except.error e)
    ∧ (∀ (env : Env) (q : String) (ub : PickerUsers),
        env.hasCredentials = true →
        env.pickerFetch q = Except.ok ⟨some ub⟩ →
        searchUsersWithPicker env q = (some ub.users, 1))
    ∧ (∀ (env : Env) (q : String), (searchUsersWithPicker env q).1 = none →
        env.hasCredentials = false
        ∨ (∃ e, env.pickerFetch q = Except.error e)
        ∨ env.pickerFetch q = Except.ok ⟨none⟩) := by
  refine ⟨?_, ?_, ?_, ?_⟩
  · intro env q l hcred hf
    unfold searchUsers searchUsersTry
    rw [hcred, hf]
    simp
  · intro env q h
    rcases hcred : env.hasCredentials with _ | _
    · exact Or.inl rfl
    · right
      rcases hf : env.searchFetch q with e | l
      · exact ⟨e, rfl⟩
      · exfalso
        unfold searchUsers searchUsersTry at h
        rw [hcred, hf] at h
        simp at h
  · intro env q ub hcred hf
    unfold searchUsersWithPicker searchUsersWithPickerTry
    rw [hcred, hf]
    simp
  · intro env q h
    rcases hcred : env.hasCredentials with _ | _
    · exact Or.inl rfl
    · right
      rcases hf : env.pickerFetch q with e | resp
      · exact Or.inl ⟨e, rfl⟩
      · rcases resp with ⟨_ | ub⟩
        · exact Or.inr rfl
        · exfalso
          unfold searchUsersWithPicker searchUsersWithPickerTry at h
          rw [hcred, hf] at h
          simp at h

/-- C4 witness: the amended statement at concrete environments. -/
theorem c4_null_means_failure_amended_witness :
    searchUsers envBob "bob" = (some [], 1)
    ∧ searchUsersWithPicker envBob "bob" = (some [userBob], 1) :=
  ⟨c4_null_means_failure_amended.1 envBob "bob" [] rfl rfl,
   c4_null_means_failure_amended.2.2.1 envBob "bob" ⟨[userBob], 1⟩ rfl rfl⟩

end JiraUsers

namespace JiraUsers

/-! ### C5: strategy priority order -/

/-- C5: on the search path the chain starts with the picker exactly for
email-shaped identifiers and with the directory search otherwise; the
directory search runs exactly when step (a) yielded no candidates; and for
a non-email identifier whose directory search returns null while the final
picker fallback returns candidates, those candidates are the ones
disambiguated and used. -/
theorem c5_priority_order :
    ∀ (env : Env) (now : Int) (cache : UserCache.CacheMap)
      (identifier : String),
    ¬ identifier = "" → isAccountId identifier = false →
    (UserCache.get now cache identifier).1 = none →
    (isEmail identifier = true →
        (resolveUserIdentifier env now cache identifier).calls.head? =
          some (StrategyCall.picker identifier))
    ∧ (isEmail identifier = false →
        (resolveUserIdentifier env now cache identifier).calls.head? =
          some (StrategyCall.directory identifier))
    ∧ ((StrategyCall.directory identifier ∈
          (resolveUserIdentifier env now cache identifier).calls)
        ↔ noCandidates (chainStep1 env identifier).users = true)
    ∧ (isEmail identifier = false →
        (searchUsers env identifier).1 = none →
        ∀ (u0 : User) (rest : List User),
          (searchUsersWithPicker env identifier).1 = some (u0 :: rest) →
          (resolveUserIdentifier env now cache identifier).calls =
            [StrategyCall.directory identifier, StrategyCall.picker identifier]
          ∧ (resolveUserIdentifier env now cache identifier).result =
              (if (pickUser identifier u0 rest).accountId ≠ ""
               then some (pickUser identifier u0 rest).accountId
               else none)) := by
  intro env now cache identifier h1 h2 h3
  have hcalls := resolve_calls_eq env now cache identifier h1 h2 h3
  rcases runChain_cases env identifier with
    ⟨he, hp, hr⟩ | ⟨he, hp, hd, hr⟩ | ⟨he, hp, hd, hr⟩ | ⟨he, hd, hr⟩ |
    ⟨he, hd, hr⟩
  · refine ⟨fun _ => ?_, fun hf => ?_, ?_, fun hf => ?_⟩
    · rw [hcalls, hr]
      rfl
    · simp [he] at hf
    · rw [hcalls, hr, chainStep1_email env identifier he]
      simp [hp]
    · simp [he] at hf
  · refine ⟨fun _ => ?_, fun hf => ?_, ?_, fun hf => ?_⟩
    · rw [hcalls, hr]
      rfl
    · simp [he] at hf
    · rw [hcalls, hr, chainStep1_email env identifier he]
      simp [hp]
    · simp [he] at hf
  · refine ⟨fun _ => ?_, fun hf => ?_, ?_, fun hf => ?_⟩
    · rw [hcalls, hr]
      rfl
    · simp [he] at hf
    · rw [hcalls, hr, chainStep1_email env identifier he]
      simp [hp]
    · simp [he] at hf
  · refine ⟨fun hf => ?_, fun _ => ?_, ?_, fun _ hsnone => ?_⟩
    · simp [he] at hf
    · rw [hcalls, hr]
      rfl
    · rw [hcalls, hr, chainStep1_not_email env identifier he]
      simp [noCandidates]
    · exfalso
      rw [hsnone] at hd
      simp [noCandidates] at hd
  · refine ⟨fun hf => ?_, fun _ => ?_, ?_, fun _ hsnone => ?_⟩
    · simp [he] at hf
    · rw [hcalls, hr]
      rfl
    · rw [hcalls, hr, chainStep1_not_email env identifier he]
      simp [noCandidates]
    · intro u0 rest hpick
      have husers : (runChain env identifier).users = some (u0 :: rest) := by
        rw [hr]
        exact hpick
      refine ⟨by rw [hcalls, hr], ?_⟩
      rw [resolve_chain_found env now cache identifier u0 rest h1 h2 h3 husers]
      by_cases hacc : (pickUser identifier u0 rest).accountId ≠ ""
      · rw [if_pos hacc, if_pos hacc]
      · rw [if_neg hacc, if_neg hacc]

/-- C5 witness: non-email identifier, directory search fails with a 403,
final picker fallback finds `userBob`, whose accountId is used. -/
theorem c5_priority_order_witness :
    (resolveUserIdentifier envDirFails 0 [] "bob").calls =
      [StrategyCall.directory "bob", StrategyCall.picker "bob"]
    ∧ (resolveUserIdentifier envDirFails 0 [] "bob").result =
        some "557058:bob" := by
  have h := (c5_priority_order envDirFails 0 [] "bob" (by decide) (by decide)
    rfl).2.2.2 (by decide) rfl userBob [] rfl
  refine ⟨h.1, ?_⟩
  rw [h.2]
  decide

/-! ### C6: cache writes only on successful resolution -/

/-- C6 counterexample: with all strategies succeeding with empty lists,
resolution of `x` returns absent — but the cache state is not unchanged:
the expired entry under the key `x` was purged by the cache lookup. -/
theorem c6_cache_changed_cex :
    searchUsers envEmptyAll "x" = (some [], 1)
    ∧ searchUsersWithPicker envEmptyAll "x" = (some [], 1)
    ∧ (resolveUserIdentifier envEmptyAll TTL [("x", ⟨"old-id", 0⟩)] "x").result
        = none
    ∧ ¬ (resolveUserIdentifier envEmptyAll TTL
          [("x", ⟨"old-id", 0⟩)] "x").cache = [("x", ⟨"old-id", 0⟩)] := by
  decide

/-- C6 (amended): a resolution inserts a cache entry only when it
terminates with a found record bearing a nonempty accountId; when all
strategies yield no candidates it returns absent and performs no write —
the cache can differ from its initial state only by the lookup's lazy
purge of an expired entry under the identifier's key. -/
theorem c6_cache_write_guard_amended :
    (∀ (env : Env) (now : Int) (cache : UserCache.CacheMap)
        (identifier : String),
        (∃ aid, (resolveUserIdentifier env now cache identifier).result =
            some aid
          ∧ ¬ aid = ""
          ∧ (resolveUserIdentifier env now cache identifier).cache =
              UserCache.set now (UserCache.get now cache identifier).2
                identifier aid)
        ∨ (resolveUserIdentifier env now cache identifier).cache = cache
        ∨ (resolveUserIdentifier env now cache identifier).cache =
            (UserCache.get now cache identifier).2)
    ∧ (∀ (env : Env) (now : Int) (cache : UserCache.CacheMap)
        (identifier : String),
        ¬ identifier = "" → isAccountId identifier = false →
        (UserCache.get now cache identifier).1 = none →
        noCandidates (searchUsers env identifier).1 = true →
        noCandidates (searchUsersWithPicker env identifier).1 = true →
        (resolveUserIdentifier env now cache identifier).result = none
        ∧ (resolveUserIdentifier env now cache identifier).cache =
            (UserCache.get now cache identifier).2) := by
  constructor
  · intro env now cache identifier
    by_cases h1 : identifier = ""
    · subst h1
      right; left
      rw [resolve_empty]
    rcases h2 : isAccountId identifier with _ | _
    · rcases hg : UserCache.get now cache identifier with ⟨r, c2⟩
      rcases r with _ | v
      · have h3 : (UserCache.get now cache identifier).1 = none := by rw [hg]
        rcases hu : (runChain env identifier).users with _ | l
        · right; right
          rw [resolve_chain_none env now cache identifier h1 h2 h3
            (by rw [hu]; rfl), hg]
        · rcases l with _ | ⟨u0, rest⟩
          · right; right
            rw [resolve_chain_none env now cache identifier h1 h2 h3
              (by rw [hu]; rfl), hg]
          · rw [resolve_chain_found env now cache identifier u0 rest h1 h2 h3
              hu]
            by_cases hacc : (pickUser identifier u0 rest).accountId ≠ ""
            · left
              refine ⟨(pickUser identifier u0 rest).accountId, ?_, hacc, ?_⟩
              · rw [if_pos hacc]
              · rw [if_pos hacc, hg]
            · right; right
              rw [if_neg hacc, hg]
      · right; right
        rw [resolve_cache_hit env now cache identifier v c2 h1 h2 hg]
    · right; left
      rw [resolve_accountId env now cache identifier h1 h2]
  · intro env now cache identifier h1 h2 h3 hs hp
    have hnc : noCandidates (runChain env identifier).users = true := by
      rcases runChain_cases env identifier with
        ⟨_, hc, _⟩ | ⟨_, _, hc, _⟩ | ⟨_, _, _, hr⟩ | ⟨_, hc, _⟩ | ⟨_, _, hr⟩
      · simp [hp] at hc
      · simp [hs] at hc
      · rw [hr]; exact hp
      · simp [hs] at hc
      · rw [hr]; exact hp
    rw [resolve_chain_none env now cache identifier h1 h2 h3 hnc]
    exact ⟨rfl, rfl⟩

/-- C6 witness: the amended not-found clause at the concrete expired-entry
input of the counterexample. -/
theorem c6_cache_write_guard_amended_witness :
    (resolveUserIdentifier envEmptyAll TTL [("x", ⟨"old-id", 0⟩)] "x").result
      = none
    ∧ (resolveUserIdentifier envEmptyAll TTL [("x", ⟨"old-id", 0⟩)] "x").cache
        = (UserCache.get TTL [("x", ⟨"old-id", 0⟩)] "x").2 :=
  c6_cache_write_guard_amended.2 envEmptyAll TTL [("x", ⟨"old-id", 0⟩)] "x"
    (by decide) (by decide) (by decide) (by decide) (by decide)

/-! ### C8: exact-match disambiguation -/

/-- C8: on a nonempty candidate list the resolver selects a record whose
email, login name or display name equals the identifier case-insensitively
when one exists, and otherwise the first vendor-returned candidate; the
resolver's result is that record's accountId (absent when it is empty). -/
theorem c8_disambiguation :
    ∀ (identifier : String) (u0 : User) (rest : List User),
    ((∃ u ∈ u0 :: rest, exactMatch identifier u = true) →
        pickUser identifier u0 rest ∈ u0 :: rest
        ∧ exactMatch identifier (pickUser identifier u0 rest) = true)
    ∧ ((∀ u ∈ u0 :: rest, exactMatch identifier u = false) →
        pickUser identifier u0 rest = u0)
    ∧ (∀ (env : Env) (now : Int) (cache : UserCache.CacheMap),
        ¬ identifier = "" → isAccountId identifier = false →
        (UserCache.get now cache identifier).1 = none →
        (runChain env identifier).users = some (u0 :: rest) →
        (resolveUserIdentifier env now cache identifier).result =
          (if (pickUser identifier u0 rest).accountId ≠ ""
           then some (pickUser identifier u0 rest).accountId else none)) := by
  intro identifier u0 rest
  refine ⟨?_, ?_, ?_⟩
  · intro hex
    rcases hf : (u0 :: rest).find? (exactMatch identifier) with _ | u
    · exfalso
      obtain ⟨u, hu, hmu⟩ := hex
      exact (List.find?_eq_none.mp hf u hu) hmu
    · unfold pickUser
      rw [hf]
      exact ⟨List.mem_of_find?_eq_some hf, List.find?_some hf⟩
  · intro hall
    unfold pickUser
    rw [List.find?_eq_none.mpr (fun x hx => by simp [hall x hx])]
    rfl
  · intro env now cache h1 h2 h3 hu
    rw [resolve_chain_found env now cache identifier u0 rest h1 h2 h3 hu]
    by_cases hacc : (pickUser identifier u0 rest).accountId ≠ ""
    · rw [if_pos hacc, if_pos hacc]
    · rw [if_neg hacc, if_neg hacc]

/-- C8 witness: with an exact display-name match present the match is
selected; with no match the first candidate is selected. -/
theorem c8_disambiguation_witness :
    exactMatch "bob" (pickUser "bob" userBob [userBobExact]) = true
    ∧ pickUser "bob" userBob [] = userBob := by
  constructor
  · exact ((c8_disambiguation "bob" userBob [userBobExact]).1
      ⟨userBobExact, by decide, by decide⟩).2
  · exact (c8_disambiguation "bob" userBob []).2.1 (by decide)

/-! ### C9: idempotence under caching -/

/-- C9 counterexample: `bob` resolves via the directory-then-picker
fallback, so the first successful resolution makes two transport calls;
the second call is a pure cache hit, and the total is two calls, not one. -/
theorem c9_single_call_cex :
    (resolveUserIdentifier envBob 0 [] "bob").result = some "557058:bob"
    ∧ (resolveUserIdentifier envBob 0 [] "bob").fetches = 2
    ∧ (resolveUserIdentifier envBob 1
        (resolveUserIdentifier envBob 0 [] "bob").cache "bob").result =
        some "557058:bob"
    ∧ (resolveUserIdentifier envBob 1
        (resolveUserIdentifier envBob 0 [] "bob").cache "bob").fetches = 0
    ∧ ¬ ((resolveUserIdentifier envBob 0 [] "bob").fetches +
        (resolveUserIdentifier envBob 1
          (resolveUserIdentifier envBob 0 [] "bob").cache "bob").fetches
        = 1) := by
  decide

/-- C9 (amended): an identifier resolved through the search path is
cached, and a second resolution within the TTL window returns the same
canonical ID with zero transport invocations (a pure cache hit); the
transport is used only during the first call. -/
theorem c9_idempotent_amended :
    ∀ (env : Env) (now1 now2 : Int) (cache : UserCache.CacheMap)
      (identifier aid : String),
    isAccountId identifier = false →
    (UserCache.get now1 cache identifier).1 = none →
    (resolveUserIdentifier env now1 cache identifier).result = some aid →
    now1 ≤ now2 → now2 - now1 < TTL →
    (resolveUserIdentifier env now2
        (resolveUserIdentifier env now1 cache identifier).cache
        identifier).result = some aid
    ∧ (resolveUserIdentifier env now2
        (resolveUserIdentifier env now1 cache identifier).cache
        identifier).fetches = 0 := by
  intro env now1 now2 cache identifier aid h2 h3 hres hle hTTL
  have h1 : ¬ identifier = "" := by
    intro he
    subst he
    rw [resolve_empty] at hres
    simp at hres
  rcases hu : (runChain env identifier).users with _ | l
  · exfalso
    rw [resolve_chain_none env now1 cache identifier h1 h2 h3
      (by rw [hu]; rfl)] at hres
    simp at hres
  rcases l with _ | ⟨u0, rest⟩
  · exfalso
    rw [resolve_chain_none env now1 cache identifier h1 h2 h3
      (by rw [hu]; rfl)] at hres
    simp at hres
  rw [resolve_chain_found env now1 cache identifier u0 rest h1 h2 h3 hu]
    at hres
  by_cases hacc : (pickUser identifier u0 rest).accountId ≠ ""
  · rw [if_pos hacc] at hres
    have haid : (pickUser identifier u0 rest).accountId = aid := by
      simpa using hres
    have hcache : (resolveUserIdentifier env now1 cache identifier).cache =
        UserCache.set now1 (UserCache.get now1 cache identifier).2 identifier
          aid := by
      rw [resolve_chain_found env now1 cache identifier u0 rest h1 h2 h3 hu,
        if_pos hacc, haid]
    rw [hcache]
    have hget2 := get_after_set now1 now2
      (UserCache.get now1 cache identifier).2 identifier aid hTTL
    unfold resolveUserIdentifier
    rw [if_neg h1, hget2]
    simp [h2]
  · exfalso
    rw [if_neg hacc] at hres
    simp at hres

/-- C9 witness: the amended statement at the counterexample's concrete
input. -/
theorem c9_idempotent_amended_witness :
    (resolveUserIdentifier envBob 1
        (resolveUserIdentifier envBob 0 [] "bob").cache "bob").result =
      some "557058:bob"
    ∧ (resolveUserIdentifier envBob 1
        (resolveUserIdentifier envBob 0 [] "bob").cache "bob").fetches = 0 :=
  c9_idempotent_amended envBob 0 1 [] "bob" "557058:bob" (by decide) rfl
    (by decide) (by decide) (by decide)

end JiraUsers

namespace JiraUsers

/-- C10 witness: uppercase variants of both accepted shapes are rejected. -/
theorem c10_case_sensitive_witness :
    isAccountId ("5570AB" ++ ":" ++ "x") = false
    ∧ isAccountId "0123456789ABCDEF0123-89ABCDEF0123456" = false :=
  ⟨c10_case_sensitive.1 "5570AB" "x" (by decide) ⟨'A', by decide, by decide⟩,
   c10_case_sensitive.2.1 "0123456789ABCDEF0123-89ABCDEF0123456" (by decide)
     (by decide) ⟨'A', by decide, by decide⟩⟩

end JiraUsers
